import Mathlib

/-!
Shallow embedding of the bevy-tiled repository core: the tile-map
coordinate mapper (src/tiled_map.rs), the layer materializer and
collision extractor helpers, and the per-frame movement, collision,
pickup and portal systems (src/movement.rs, src/main.rs).

All f32 arithmetic of the source is modelled over the rationals, which
is exact for every operation the code performs on the inputs considered
here (sums, differences, products, halving and the 1.5 factor).
-/

namespace BevyTiled

/-- World-space point (models bevy Vec2 or the x,y part of a Vec3 translation,
and the Point struct of src/tiled_map.rs). -/
structure Point where
  x : ℚ
  y : ℚ
deriving DecidableEq

/-- Model of TilemapSize (src/tiled_map.rs): tileset columns and rows plus
map width and height in tiles. -/
structure TilemapSize where
  columns : ℕ
  rows : ℕ
  width : ℕ
  height : ℕ
deriving DecidableEq

/-- Model of TilemapTileSize (src/tiled_map.rs): width and height of a tile. -/
structure TilemapTileSize where
  width : ℚ
  height : ℚ
deriving DecidableEq

/-- TilemapTileSize::scaled. -/
def TilemapTileSize.scaled (ts : TilemapTileSize) (scale : ℚ) : TilemapTileSize :=
  { width := ts.width * scale, height := ts.height * scale }

/-- The fixed zoom constant SCALE of src/tiled_map.rs. -/
def SCALE : ℚ := 3

/-- The fixed movement constant PLAYER_SPEED of src/movement.rs. -/
def PLAYER_SPEED : ℚ := 125

/-- Point::from_tiled_collision (src/tiled_map.rs lines 709-725). -/
def Point.from_tiled_collision (sz : TilemapSize) (ts : TilemapTileSize)
    (scale : ℚ) (x y : ℤ) : Point :=
  { x := (x : ℚ) * (ts.scaled scale).width
      - ((sz.width : ℚ) * (ts.scaled scale).width) / 2
      + (ts.scaled scale).width / 2
    y := -((y : ℚ) * (ts.scaled scale).height
      - ((sz.height : ℚ) * (ts.scaled scale).height) / 2)
      - (ts.scaled scale).height / 2 }

/-- Point::get_map_origin (src/tiled_map.rs lines 728-739). -/
def Point.get_map_origin (sz : TilemapSize) (ts : TilemapTileSize)
    (scale : ℚ) : Point :=
  { x := -(((sz.width : ℚ) * (ts.scaled scale).width) / 2)
      + (ts.scaled scale).width / 2
    y := -(((sz.height : ℚ) * (ts.scaled scale).height) / 2)
      + (ts.scaled scale).height / 2 }

/-- Point::from_tiled_tile (src/tiled_map.rs lines 742-751): row inversion
of TMX tile coordinates; the usize subtraction is Nat subtraction. -/
def Point.from_tiled_tile (sz : TilemapSize) (x y : ℕ) : Point :=
  { x := (x : ℚ), y := ((sz.height - 1 - y : ℕ) : ℚ) }

/-- Point::from_tiled_object (src/tiled_map.rs lines 754-767). -/
def Point.from_tiled_object (sz : TilemapSize) (ts : TilemapTileSize)
    (scale : ℚ) (x y : ℚ) : Point :=
  { x := x * scale - ((sz.width : ℚ) * (ts.scaled scale).width) / 2
    y := -(y * scale - ((sz.height : ℚ) * (ts.scaled scale).height) / 2) }

/-- Point::from_tiled_object_shape (src/tiled_map.rs lines 770-789). -/
def Point.from_tiled_object_shape (sz : TilemapSize) (ts : TilemapTileSize)
    (scale : ℚ) (x y w h : ℚ) : Point :=
  { x := x * scale - ((sz.width : ℚ) * (ts.scaled scale).width) / 2
      + w * 1.5
    y := -(y * scale - ((sz.height : ℚ) * (ts.scaled scale).height) / 2)
      - h * 1.5 }

/-- World position at which the tile placed in tilemap grid slot (x, y) by
process_map_layers is rendered: the tilemap bundle translation is the map
origin of Point::get_map_origin and each tile sits at its grid offset
scaled by the bundle scale (src/tiled_map.rs lines 247-265). -/
def tile_render_point (sz : TilemapSize) (ts : TilemapTileSize)
    (scale : ℚ) (x y : ℕ) : Point :=
  { x := (Point.get_map_origin sz ts scale).x + (x : ℚ) * (ts.scaled scale).width
    y := (Point.get_map_origin sz ts scale).y + (y : ℚ) * (ts.scaled scale).height }

/-- Model of bevy::sprite::collide_aabb::Collision (external dependency,
bevy 0.12): the side of the second box that the first box struck. -/
inductive Collision
  | Left
  | Right
  | Top
  | Bottom
  | Inside
deriving DecidableEq

/-- Absolute-value comparison of penetration depths, where `none` models the
negative-infinity depth bevy uses for the Inside probe (its absolute value
compares as positive infinity, so `inf < inf` and `a < inf` follow f32). -/
def depth_abs_lt : Option ℚ → Option ℚ → Bool
  | some a, some b => |a| < |b|
  | some _, none => true
  | none, _ => false

/-- Model of bevy::sprite::collide_aabb::collide (external dependency,
bevy 0.12, translated from its source): axis-aligned box overlap test
returning the struck side of the second box, `Inside` when neither axis
probe fires, and `none` when the boxes do not strictly overlap. -/
def collide (a_pos : Point) (a_size : TilemapTileSize)
    (b_pos : Point) (b_size : TilemapTileSize) : Option Collision :=
  let a_min_x := a_pos.x - a_size.width / 2
  let a_max_x := a_pos.x + a_size.width / 2
  let a_min_y := a_pos.y - a_size.height / 2
  let a_max_y := a_pos.y + a_size.height / 2
  let b_min_x := b_pos.x - b_size.width / 2
  let b_max_x := b_pos.x + b_size.width / 2
  let b_min_y := b_pos.y - b_size.height / 2
  let b_max_y := b_pos.y + b_size.height / 2
  if a_min_x < b_max_x ∧ a_max_x > b_min_x ∧ a_min_y < b_max_y ∧ a_max_y > b_min_y then
    let x_probe : Collision × Option ℚ :=
      if a_min_x < b_min_x ∧ a_max_x > b_min_x ∧ a_max_x < b_max_x then
        (Collision.Left, some (b_min_x - a_max_x))
      else if a_min_x > b_min_x ∧ a_min_x < b_max_x ∧ a_max_x > b_max_x then
        (Collision.Right, some (a_min_x - b_max_x))
      else
        (Collision.Inside, none)
    let y_probe : Collision × Option ℚ :=
      if a_min_y < b_min_y ∧ a_max_y > b_min_y ∧ a_max_y < b_max_y then
        (Collision.Bottom, some (b_min_y - a_max_y))
      else if a_min_y > b_min_y ∧ a_min_y < b_max_y ∧ a_max_y > b_max_y then
        (Collision.Top, some (a_min_y - b_max_y))
      else
        (Collision.Inside, none)
    if depth_abs_lt y_probe.2 x_probe.2 then some y_probe.1 else some x_probe.1
  else
    none

/-- The Direction enum of src/movement.rs. -/
inductive Direction
  | Stopped
  | Up
  | Down
  | Left
  | Right
deriving DecidableEq

/-- The Moveable component of src/movement.rs. -/
structure Moveable where
  speed : ℚ
  direction : Direction
deriving DecidableEq

/-- Snapshot of the four directional keys read by input_system_keyboard. -/
structure KeysPressed where
  up : Bool
  down : Bool
  left : Bool
  right : Bool
deriving DecidableEq

/-- input_system_keyboard (src/movement.rs lines 57-96): each held key is
checked in the order Up, Down, Left, Right with an early return; with no key
held, a positive speed coasts down by 2.0 per frame, otherwise the entity
stops. -/
def input_system_keyboard (keys : KeysPressed) (pm : Moveable) : Moveable :=
  if keys.up then { speed := PLAYER_SPEED, direction := Direction.Up }
  else if keys.down then { speed := PLAYER_SPEED, direction := Direction.Down }
  else if keys.left then { speed := PLAYER_SPEED, direction := Direction.Left }
  else if keys.right then { speed := PLAYER_SPEED, direction := Direction.Right }
  else if pm.speed > 0 then { speed := pm.speed - 2, direction := pm.direction }
  else { speed := 0, direction := Direction.Stopped }

/-- The no-key input snapshot. -/
def no_keys : KeysPressed :=
  { up := false, down := false, left := false, right := false }

/-- update_player_position (src/movement.rs lines 98-119): axis-aligned
integration of speed over the elapsed seconds. -/
def update_player_position (pt : Point) (pm : Moveable) (dt : ℚ) : Point :=
  match pm.direction with
  | Direction.Stopped => pt
  | Direction.Up => { pt with y := pt.y + pm.speed * dt }
  | Direction.Down => { pt with y := pt.y - pm.speed * dt }
  | Direction.Left => { pt with x := pt.x - pm.speed * dt }
  | Direction.Right => { pt with x := pt.x + pm.speed * dt }

/-- One iteration of the collideable loop of check_collideable
(src/movement.rs lines 147-217), against a single collision footprint:
on overlap, the four direction and struck-edge pairs are tested in
sequence, each correcting the position and zeroing the speed. -/
def check_collideable (pt : Point) (pm : Moveable) (psz : TilemapTileSize)
    (ct : Point) (csz : TilemapTileSize) : Point × Moveable :=
  match collide pt psz ct csz with
  | none => (pt, pm)
  | some collision =>
    let s1 : Point × Moveable :=
      if pm.direction = Direction.Left ∧ collision = Collision.Right then
        ({ pt with x := ct.x + csz.width }, { pm with speed := 0 })
      else (pt, pm)
    let s2 : Point × Moveable :=
      if pm.direction = Direction.Right ∧ collision = Collision.Left then
        ({ s1.1 with x := ct.x - csz.width }, { s1.2 with speed := 0 })
      else s1
    let s3 : Point × Moveable :=
      if pm.direction = Direction.Up ∧ collision = Collision.Bottom then
        ({ s2.1 with y := ct.y - csz.height }, { s2.2 with speed := 0 })
      else s2
    let s4 : Point × Moveable :=
      if pm.direction = Direction.Down ∧ collision = Collision.Top then
        ({ s3.1 with y := ct.y + csz.height }, { s3.2 with speed := 0 })
      else s3
    s4

/-- The Potion enum of src/main.rs. -/
inductive Potion
  | Red
  | Green
  | Blue
deriving DecidableEq

/-- The Weapon enum of src/main.rs. -/
inductive Weapon
  | Sword
  | Hammer
  | Axe
deriving DecidableEq

/-- The Inventory component of src/main.rs; the Collectable newtype wrapper
is transparent to equality, so slots hold the item enums directly. -/
structure Inventory where
  potion : Option Potion
  weapon : Option Weapon
deriving DecidableEq

/-- Inventory::new (src/main.rs). -/
def Inventory.new : Inventory := { potion := none, weapon := none }

/-- A spawned collectable entity: transform translation, sprite size and
the carried item. -/
structure CollectableEntity (α : Type) where
  pos : Point
  size : TilemapTileSize
  item : α

/-- One iteration of the collectable loop of check_collectable_potion
(src/movement.rs lines 220-247). -/
def potion_step (pt : Point) (psz : TilemapTileSize) (inv : Inventory)
    (c : CollectableEntity Potion) : Inventory :=
  match collide pt psz c.pos c.size with
  | some _ =>
    if inv.potion ≠ some c.item then { inv with potion := some c.item } else inv
  | none => inv

/-- check_collectable_potion (src/movement.rs lines 220-247): the loop over
all potion collectables. -/
def check_collectable_potion (pt : Point) (psz : TilemapTileSize)
    (cs : List (CollectableEntity Potion)) (inv : Inventory) : Inventory :=
  cs.foldl (potion_step pt psz) inv

/-- One iteration of the collectable loop of check_collectable_weapon
(src/movement.rs lines 250-277). -/
def weapon_step (pt : Point) (psz : TilemapTileSize) (inv : Inventory)
    (c : CollectableEntity Weapon) : Inventory :=
  match collide pt psz c.pos c.size with
  | some _ =>
    if inv.weapon ≠ some c.item then { inv with weapon := some c.item } else inv
  | none => inv

/-- check_collectable_weapon (src/movement.rs lines 250-277): the loop over
all weapon collectables. -/
def check_collectable_weapon (pt : Point) (psz : TilemapTileSize)
    (cs : List (CollectableEntity Weapon)) (inv : Inventory) : Inventory :=
  cs.foldl (weapon_step pt psz) inv

/-- The inventory gate of check_portal (src/movement.rs lines 304-319):
all four slots must be occupied and the values must match per slot. -/
def portal_gate (player_inventory portal_inventory : Inventory) : Bool :=
  match player_inventory.weapon, player_inventory.potion,
      portal_inventory.weapon, portal_inventory.potion with
  | some pl_weapon, some pl_potion, some po_weapon, some po_potion =>
    pl_weapon == po_weapon && pl_potion == po_potion
  | _, _, _, _ => false

/-- One iteration of the portal loop of check_portal (src/movement.rs lines
280-342), against a single portal: on overlap the gate is evaluated (a
failing gate returns with no state change), then only the Top and Bottom
struck edges, paired with Down and Up travel, teleport the player and
restore full speed. The 1.5 factor of the source is written 3 / 2. -/
def check_portal (pt : Point) (psz : TilemapTileSize) (pm : Moveable)
    (player_inventory : Inventory) (portal_pos : Point)
    (portal_size : TilemapTileSize) (portal_inventory : Inventory) :
    Point × Moveable :=
  match collide pt psz portal_pos portal_size with
  | none => (pt, pm)
  | some collision =>
    if portal_gate player_inventory portal_inventory then
      match collision with
      | Collision.Top =>
        if pm.direction = Direction.Down then
          ({ pt with y := portal_pos.y - (portal_size.height - psz.height * (3 / 2)) },
           { pm with speed := PLAYER_SPEED })
        else (pt, pm)
      | Collision.Bottom =>
        if pm.direction = Direction.Up then
          ({ pt with y := portal_pos.y + (portal_size.height - psz.height * (3 / 2)) },
           { pm with speed := PLAYER_SPEED })
        else (pt, pm)
      | _ => (pt, pm)
    else (pt, pm)

/-- Per-cell tile data of a finite TMX tile layer: tileset index, local
tile id and the three document flip flags. -/
structure LayerTileData where
  tileset_index : ℕ
  id : ℕ
  flip_h : Bool
  flip_v : Bool
  flip_d : Bool
deriving DecidableEq

/-- Model of bevy_simple_tilemap TileFlags restricted to the two flip bits
the code sets (FLIP_X, FLIP_Y). -/
structure TileFlags where
  flip_x : Bool
  flip_y : Bool
deriving DecidableEq

/-- The flip-flag translation of build_tiles (src/tiled_map.rs lines
602-610). -/
def tile_flags (d : LayerTileData) : TileFlags :=
  if d.flip_v && d.flip_d then { flip_x := true, flip_y := true }
  else if d.flip_v then { flip_x := false, flip_y := true }
  else if d.flip_d then { flip_x := true, flip_y := false }
  else { flip_x := false, flip_y := false }

/-- Model of a bevy_simple_tilemap Tile as built by build_tiles. -/
structure Tile where
  sprite_index : ℕ
  flags : TileFlags
deriving DecidableEq

/-- build_tiles (src/tiled_map.rs lines 562-624) over a finite layer grid:
for every cell the document tile is fetched at the row-inverted coordinate
(Point::from_tiled_tile), cells that are empty or belong to another tileset
are skipped, and the emitted tile carries the translated flip flags. -/
def build_tiles (grid : ℕ → ℕ → Option LayerTileData) (sz : TilemapSize)
    (tileset_index layer_index : ℕ) : List ((ℕ × ℕ × ℕ) × Tile) :=
  (List.range sz.width).flatMap (fun x =>
    (List.range sz.height).filterMap (fun y =>
      match grid x (sz.height - 1 - y) with
      | none => none
      | some d =>
        if d.tileset_index = tileset_index then
          some ((x, y, layer_index), { sprite_index := d.id, flags := tile_flags d })
        else none))

/-- Model of Rust str::split on a comma, as used by setup_portals on a
portal name; structural so that it evaluates. -/
def split_comma (s : String) : List String :=
  (s.toList.foldr
    (fun c acc =>
      if c = ',' then [] :: acc
      else
        match acc with
        | [] => [[c]]
        | h :: t => (c :: h) :: t)
    [[]]).map (fun cs => String.mk cs)

/-- The portal-name inventory parser of setup_portals (src/main.rs lines
116-140). -/
def parse_portal_inventory (name : String) : Inventory :=
  (split_comma name).foldl
    (fun inv n =>
      if n = "Green potion" then { inv with potion := some Potion.Green }
      else if n = "Red potion" then { inv with potion := some Potion.Red }
      else if n = "Blue potion" then { inv with potion := some Potion.Blue }
      else if n = "Hammer" then { inv with weapon := some Weapon.Hammer }
      else if n = "Axe" then { inv with weapon := some Weapon.Axe }
      else if n = "Sword" then { inv with weapon := some Weapon.Sword }
      else inv)
    Inventory.new

/-- The name and class tag of a spawned TiledShape entity (src/tiled_map.rs). -/
structure TiledShapeData where
  name : Option String
  cls : Option String
deriving DecidableEq

/-- What setup_portals did to one TiledShape entity. -/
inductive ShapeSetup
  | portal (inv : Option Inventory)
  | untouched
deriving DecidableEq

/-- setup_portals (src/main.rs lines 95-152): walks the spawned shapes in
order; a shape with a class tag other than Portal hits the early
`return`, which ends the whole pass and leaves it and every later shape
untouched; a Portal shape receives the Portal marker plus the inventory
parsed from its name; a shape with no class tag is skipped and the walk
continues. -/
def setup_portals : List TiledShapeData → List ShapeSetup
  | [] => []
  | s :: rest =>
    match s.cls with
    | some c =>
      if c ≠ "Portal" then (s :: rest).map (fun _ => ShapeSetup.untouched)
      else ShapeSetup.portal (s.name.map parse_portal_inventory) :: setup_portals rest
    | none => ShapeSetup.untouched :: setup_portals rest

/-- Example tile-layer grid with a single diagonal-flipped tile at the
origin, used to instantiate the build_tiles theorems. -/
def demo_grid : ℕ → ℕ → Option LayerTileData :=
  fun x y =>
    if x = 0 ∧ y = 0 then
      some { tileset_index := 0, id := 7, flip_h := false, flip_v := false, flip_d := true }
    else none

/-- Generic slot-level view of a pickup loop: each hit overwrites the slot
with the value of the hitting collectable. -/
def slot_fold {α β : Type} (hit : β → Bool) (val : β → α)
    (cs : List β) (p : Option α) : Option α :=
  cs.foldl (fun q c => if hit c then some (val c) else q) p

/-- C1 (corrected): for an in-bounds cell, the collision footprint position,
Point::from_tiled_collision applied to the row-inverted cell coordinates,
does not sit one full scaled tile away from the tile render position for
the same cell; the two positions coincide, so the separation is 0 in both
axes, not the full scaled tile width 48. Concrete 4 by 4 map of 16 by 16
tiles at scale 3, cell (1, 1), row-inverted y = 2. -/
theorem c1_counterexample :
    (Point.from_tiled_collision ⟨4, 4, 4, 4⟩ ⟨16, 16⟩ 3 1 2).x
        - (tile_render_point ⟨4, 4, 4, 4⟩ ⟨16, 16⟩ 3 1 1).x = 0 ∧
    (Point.from_tiled_collision ⟨4, 4, 4, 4⟩ ⟨16, 16⟩ 3 1 2).y
        - (tile_render_point ⟨4, 4, 4, 4⟩ ⟨16, 16⟩ 3 1 1).y = 0 ∧
    ((⟨16, 16⟩ : TilemapTileSize).scaled 3).width = 48 ∧
    (0 : ℚ) ≠ 48 := by
  norm_num [Point.from_tiled_collision, tile_render_point, Point.get_map_origin,
    TilemapTileSize.scaled]

/-- C1 (amended): for every in-bounds cell (x, y) of the layer walk, the
collision footprint position, Point::from_tiled_collision applied to the
row-inverted cell coordinates, and the tile render position for the same
cell, the map origin of Point::get_map_origin plus the scaled grid offset
of the cell, coincide exactly: zero separation in both axes. -/
theorem c1_footprint_matches_tile (sz : TilemapSize) (ts : TilemapTileSize)
    (scale : ℚ) (x y : ℕ) (hx : x < sz.width) (hy : y < sz.height) :
    Point.from_tiled_collision sz ts scale (x : ℤ) ((sz.height - 1 - y : ℕ) : ℤ) =
      tile_render_point sz ts scale x y := by
  have hcast : ((sz.height - 1 - y : ℕ) : ℚ) = (sz.height : ℚ) - 1 - y := by
    have h1 : sz.height - 1 - y + (y + 1) = sz.height := by omega
    have h2 := congrArg (Nat.cast : ℕ → ℚ) h1
    push_cast at h2
    linarith
  simp only [Point.from_tiled_collision, tile_render_point, Point.get_map_origin,
    TilemapTileSize.scaled, Point.mk.injEq]
  constructor
  · push_cast
    ring
  · push_cast [hcast]
    ring

/-- C1 witness: the coincidence theorem instantiated at the concrete 4 by 4
map of 16 by 16 tiles at scale 3, cell (1, 1). -/
theorem c1_witness :
    Point.from_tiled_collision ⟨4, 4, 4, 4⟩ ⟨16, 16⟩ 3 1 ((4 - 1 - 1 : ℕ) : ℤ) =
      tile_render_point ⟨4, 4, 4, 4⟩ ⟨16, 16⟩ 3 1 1 :=
  c1_footprint_matches_tile ⟨4, 4, 4, 4⟩ ⟨16, 16⟩ 3 1 1 (by decide) (by decide)

/-- C3 (confirmed): for every rectangle-shaped map object,
Point::from_tiled_object_shape equals Point::from_tiled_object at the same
coordinates shifted by plus 1.5 times the shape width along x and minus
1.5 times the shape height along y. -/
theorem c3_shape_object_offset (sz : TilemapSize) (ts : TilemapTileSize)
    (scale x y w h : ℚ) :
    (Point.from_tiled_object_shape sz ts scale x y w h).x =
      (Point.from_tiled_object sz ts scale x y).x + 1.5 * w ∧
    (Point.from_tiled_object_shape sz ts scale x y w h).y =
      (Point.from_tiled_object sz ts scale x y).y - 1.5 * h := by
  constructor <;>
    · norm_num [Point.from_tiled_object_shape, Point.from_tiled_object,
        TilemapTileSize.scaled]
      ring

/-- C4 (confirmed): the portal gate admits the player exactly when both of
the player inventory slots are occupied and each equals the corresponding
slot of the portal inventory; in particular an empty weapon slot or a
mismatched weapon is rejected. -/
theorem c4_portal_gate_exact_match (pl po : Inventory) :
    (portal_gate pl po = true ↔
      pl.potion.isSome ∧ pl.weapon.isSome ∧
        pl.potion = po.potion ∧ pl.weapon = po.weapon) ∧
    portal_gate { potion := pl.potion, weapon := none } po = false ∧
    (∀ p : Potion, ∀ w1 w2 : Weapon, w1 ≠ w2 →
      portal_gate { potion := some p, weapon := some w1 }
        { potion := some p, weapon := some w2 } = false) := by
  obtain ⟨pp, pw⟩ := pl
  obtain ⟨qp, qw⟩ := po
  refine ⟨?_, ?_, ?_⟩
  · cases pp <;> cases pw <;> cases qp <;> cases qw <;>
      simp [portal_gate] <;> tauto
  · cases pp <;> cases qp <;> cases qw <;> simp [portal_gate]
  · intro p w1 w2 hne
    simp [portal_gate, hne]

/-- C4 witness: a player holding the required potion but a different weapon
is rejected by the gate. -/
theorem c4_witness :
    portal_gate { potion := some Potion.Red, weapon := some Weapon.Axe }
      { potion := some Potion.Red, weapon := some Weapon.Hammer } = false :=
  (c4_portal_gate_exact_match
      { potion := some Potion.Red, weapon := some Weapon.Axe }
      { potion := some Potion.Red, weapon := some Weapon.Hammer }).2.2
    Potion.Red Weapon.Axe Weapon.Hammer (by decide)

/-- C7 (counterexample): with Up and Down both held, input_system_keyboard
picks Up, the first-checked held key, while the last-checked held key is
Down, so the last-checked held axis does not win. -/
theorem c7_counterexample :
    input_system_keyboard { up := true, down := true, left := false, right := false }
        { speed := 0, direction := Direction.Stopped } =
      { speed := PLAYER_SPEED, direction := Direction.Up } ∧
    Direction.Up ≠ Direction.Down := by
  exact ⟨rfl, by decide⟩

/-- C7 (amended): if any directional key is held, the result has the fixed
constant speed and the direction of the first held key in the check order
Up, Down, Left, Right; diagonals are never combined. -/
theorem c7_first_held_key_wins (keys : KeysPressed) (pm : Moveable)
    (h : keys.up = true ∨ keys.down = true ∨ keys.left = true ∨ keys.right = true) :
    input_system_keyboard keys pm =
      { speed := PLAYER_SPEED
        direction :=
          if keys.up then Direction.Up
          else if keys.down then Direction.Down
          else if keys.left then Direction.Left
          else Direction.Right } := by
  obtain ⟨u, d, l, r⟩ := keys
  cases u <;> cases d <;> cases l <;> cases r <;> simp_all [input_system_keyboard]

/-- C7 witness: with only Left held, the result is full speed Left. -/
theorem c7_witness :
    input_system_keyboard { up := false, down := false, left := true, right := false }
        { speed := 0, direction := Direction.Stopped } =
      { speed := PLAYER_SPEED, direction := Direction.Left } :=
  c7_first_held_key_wins
    { up := false, down := false, left := true, right := false }
    { speed := 0, direction := Direction.Stopped }
    (Or.inr (Or.inr (Or.inl rfl)))

/-- C9 (code bug): a shape whose class tag is present but not Portal makes
setup_portals return from the whole pass, so a genuine Portal shape that
comes later is left untouched; the same Portal shape alone is processed. -/
theorem c9_unrecognized_tag_ends_pass :
    setup_portals
        [{ name := none, cls := some "Door" },
         { name := some "Hammer", cls := some "Portal" }] =
      [ShapeSetup.untouched, ShapeSetup.untouched] ∧
    setup_portals [{ name := some "Hammer", cls := some "Portal" }] =
      [ShapeSetup.portal (some { potion := none, weapon := some Weapon.Hammer })] := by
  exact ⟨rfl, rfl⟩

/-- C2 (counterexample): travelling Left into a footprint struck on its
Right side, the resolver sets the entity x to the footprint x plus the
footprint width (here 28). The corrected entity right-facing edge,
28 + 48 / 2 = 52, is not the footprint right edge, -20 + 48 / 2 = 4, so
the claimed snap target is wrong; with equal sizes it is the left-facing
edge that lands on the footprint right edge. -/
theorem c2_counterexample :
    check_collideable ⟨10, 0⟩ ⟨5, Direction.Left⟩ ⟨48, 48⟩ ⟨-20, 0⟩ ⟨48, 48⟩ =
      (⟨28, 0⟩, ⟨0, Direction.Left⟩) ∧
    collide ⟨10, 0⟩ ⟨48, 48⟩ ⟨-20, 0⟩ ⟨48, 48⟩ = some Collision.Right ∧
    (28 : ℚ) + 48 / 2 ≠ -20 + 48 / 2 := by
  refine ⟨?_, ?_, by norm_num⟩
  · norm_num [check_collideable, collide, depth_abs_lt]
    simp
  · norm_num [collide, depth_abs_lt]

/-- C2 (amended): on overlap, the speed is zeroed and the position corrected
exactly for the four pairs (Left, Right edge), (Right, Left edge),
(Up, Bottom edge), (Down, Top edge); the correction places the entity
center one full footprint extent beyond the footprint center on the travel
axis (for equal sizes, the leading edge lands on the struck side of the
footprint); every other pair leaves position and speed unchanged. -/
theorem c2_blocking_pairs (pt : Point) (pm : Moveable) (psz : TilemapTileSize)
    (ct : Point) (csz : TilemapTileSize) (col : Collision)
    (hcol : collide pt psz ct csz = some col) :
    (pm.direction = Direction.Left → col = Collision.Right →
      check_collideable pt pm psz ct csz =
        ({ pt with x := ct.x + csz.width }, { pm with speed := 0 })) ∧
    (pm.direction = Direction.Right → col = Collision.Left →
      check_collideable pt pm psz ct csz =
        ({ pt with x := ct.x - csz.width }, { pm with speed := 0 })) ∧
    (pm.direction = Direction.Up → col = Collision.Bottom →
      check_collideable pt pm psz ct csz =
        ({ pt with y := ct.y - csz.height }, { pm with speed := 0 })) ∧
    (pm.direction = Direction.Down → col = Collision.Top →
      check_collideable pt pm psz ct csz =
        ({ pt with y := ct.y + csz.height }, { pm with speed := 0 })) ∧
    (¬((pm.direction = Direction.Left ∧ col = Collision.Right) ∨
        (pm.direction = Direction.Right ∧ col = Collision.Left) ∨
        (pm.direction = Direction.Up ∧ col = Collision.Bottom) ∨
        (pm.direction = Direction.Down ∧ col = Collision.Top)) →
      check_collideable pt pm psz ct csz = (pt, pm)) := by
  obtain ⟨s, d⟩ := pm
  cases d <;> cases col <;> simp_all [check_collideable]

/-- C2 witness: the blocking theorem instantiated at the concrete leftward
collision of the counterexample configuration. -/
theorem c2_witness :
    check_collideable ⟨10, 0⟩ ⟨5, Direction.Left⟩ ⟨48, 48⟩ ⟨-20, 0⟩ ⟨48, 48⟩ =
      ({ x := -20 + 48, y := 0 }, { speed := 0, direction := Direction.Left }) :=
  (c2_blocking_pairs ⟨10, 0⟩ ⟨5, Direction.Left⟩ ⟨48, 48⟩ ⟨-20, 0⟩ ⟨48, 48⟩
      Collision.Right (by norm_num [collide, depth_abs_lt])).1 rfl rfl

/-- C5 (counterexample): gate passes, the player travels Right and strikes
the portal Left edge (its near edge for rightward travel), yet check_portal
leaves position and speed unchanged: horizontal traversal never teleports,
so the travel axis is not "whichever of the two axes". -/
theorem c5_counterexample :
    portal_gate { potion := some Potion.Red, weapon := some Weapon.Hammer }
        { potion := some Potion.Red, weapon := some Weapon.Hammer } = true ∧
    collide ⟨0, 0⟩ ⟨48, 48⟩ ⟨30, 0⟩ ⟨48, 96⟩ = some Collision.Left ∧
    check_portal ⟨0, 0⟩ ⟨48, 48⟩ ⟨5, Direction.Right⟩
        { potion := some Potion.Red, weapon := some Weapon.Hammer }
        ⟨30, 0⟩ ⟨48, 96⟩
        { potion := some Potion.Red, weapon := some Weapon.Hammer } =
      (⟨0, 0⟩, ⟨5, Direction.Right⟩) ∧
    (5 : ℚ) ≠ PLAYER_SPEED := by
  refine ⟨rfl, ?_, ?_, by norm_num [PLAYER_SPEED]⟩ <;>
    norm_num [check_portal, collide, depth_abs_lt, portal_gate]

/-- C5 (amended): when the gate passes, only vertical traversal teleports:
travelling Down through the Top edge sets y to the portal y minus
(portal height - 1.5 player height) and restores full speed; travelling Up
through the Bottom edge sets y to the portal y plus the same offset and
restores full speed; horizontal travel (Left or Right) leaves position and
speed unchanged. -/
theorem c5_portal_traversal (pt : Point) (psz : TilemapTileSize) (pm : Moveable)
    (plinv : Inventory) (pop : Point) (posz : TilemapTileSize) (poinv : Inventory)
    (col : Collision)
    (hcol : collide pt psz pop posz = some col)
    (hgate : portal_gate plinv poinv = true) :
    (col = Collision.Top → pm.direction = Direction.Down →
      check_portal pt psz pm plinv pop posz poinv =
        ({ pt with y := pop.y - (posz.height - psz.height * (3 / 2)) },
         { pm with speed := PLAYER_SPEED })) ∧
    (col = Collision.Bottom → pm.direction = Direction.Up →
      check_portal pt psz pm plinv pop posz poinv =
        ({ pt with y := pop.y + (posz.height - psz.height * (3 / 2)) },
         { pm with speed := PLAYER_SPEED })) ∧
    (pm.direction = Direction.Left ∨ pm.direction = Direction.Right →
      check_portal pt psz pm plinv pop posz poinv = (pt, pm)) := by
  obtain ⟨s, d⟩ := pm
  cases d <;> cases col <;> simp_all [check_portal]

/-- C5 witness: a player above a matching portal travelling Down is
teleported to the lower side and restored to full speed. -/
theorem c5_witness :
    check_portal ⟨0, 60⟩ ⟨48, 48⟩ ⟨5, Direction.Down⟩
        { potion := some Potion.Red, weapon := some Weapon.Hammer }
        ⟨0, 0⟩ ⟨48, 96⟩
        { potion := some Potion.Red, weapon := some Weapon.Hammer } =
      (⟨0, -24⟩, ⟨125, Direction.Down⟩) := by
  have h := (c5_portal_traversal ⟨0, 60⟩ ⟨48, 48⟩ ⟨5, Direction.Down⟩
      { potion := some Potion.Red, weapon := some Weapon.Hammer }
      ⟨0, 0⟩ ⟨48, 96⟩
      { potion := some Potion.Red, weapon := some Weapon.Hammer }
      Collision.Top (by norm_num [collide, depth_abs_lt]) rfl).1 rfl rfl
  rw [h]
  norm_num [PLAYER_SPEED, Prod.ext_iff]

/-- The flip translation of build_tiles written as the two flip bits: the
output x flip is the document diagonal flip, the output y flip is the
document vertical flip. -/
theorem tile_flags_eq_flip_bits (d : LayerTileData) :
    tile_flags d = { flip_x := d.flip_d, flip_y := d.flip_v } := by
  obtain ⟨ti, i, fh, fv, fd⟩ := d
  cases fv <;> cases fd <;> rfl

/-- C6 (confirmed): every tile emitted by build_tiles comes from an
in-bounds cell of its tileset, and its flags are exactly the claimed
translation of the document flags: diagonal flip alone gives a horizontal
flip, vertical flip alone gives a vertical flip, both give both, neither
gives none (equivalently flip_x = flip_d and flip_y = flip_v). -/
theorem c6_flip_flag_translation (grid : ℕ → ℕ → Option LayerTileData)
    (sz : TilemapSize) (tsi li : ℕ) (entry : (ℕ × ℕ × ℕ) × Tile)
    (h : entry ∈ build_tiles grid sz tsi li) :
    ∃ x y d, x < sz.width ∧ y < sz.height ∧
      grid x (sz.height - 1 - y) = some d ∧ d.tileset_index = tsi ∧
      entry = ((x, y, li), { sprite_index := d.id, flags := tile_flags d }) ∧
      entry.2.flags = { flip_x := d.flip_d, flip_y := d.flip_v } := by
  simp only [build_tiles, List.mem_flatMap, List.mem_filterMap, List.mem_range] at h
  obtain ⟨x, hx, y, hy, hf⟩ := h
  refine ⟨x, y, ?_⟩
  split at hf
  · exact absurd hf (by simp)
  · rename_i d hg
    split at hf
    · rename_i ht
      have he : entry = ((x, y, li), { sprite_index := d.id, flags := tile_flags d }) :=
        (Option.some_inj.mp hf).symm
      exact ⟨d, hx, hy, hg, ht, he, by rw [he, tile_flags_eq_flip_bits]⟩
    · exact absurd hf (by simp)

/-- C6 witness: the translation theorem instantiated on the 1 by 1 demo
grid whose only tile has the diagonal flip set, emitting a horizontal
flip. -/
theorem c6_witness :
    ∃ x y d, x < (⟨1, 1, 1, 1⟩ : TilemapSize).width ∧
      y < (⟨1, 1, 1, 1⟩ : TilemapSize).height ∧
      demo_grid x ((⟨1, 1, 1, 1⟩ : TilemapSize).height - 1 - y) = some d ∧
      d.tileset_index = 0 ∧
      (((0, 0, 0), { sprite_index := 7, flags := { flip_x := true, flip_y := false } }) :
          (ℕ × ℕ × ℕ) × Tile) =
        ((x, y, 0), { sprite_index := d.id, flags := tile_flags d }) ∧
      (((0, 0, 0), { sprite_index := 7, flags := { flip_x := true, flip_y := false } }) :
          (ℕ × ℕ × ℕ) × Tile).2.flags =
        { flip_x := d.flip_d, flip_y := d.flip_v } :=
  c6_flip_flag_translation demo_grid ⟨1, 1, 1, 1⟩ 0 0
    ((0, 0, 0), { sprite_index := 7, flags := { flip_x := true, flip_y := false } })
    (by decide)

/-- One potion pickup iteration always leaves the weapon slot alone and
sets the potion slot to the overlapped item (or leaves it when there is no
overlap); the inequality guard of the source only skips a redundant
write. -/
theorem potion_step_eq (pt : Point) (psz : TilemapTileSize) (inv : Inventory)
    (c : CollectableEntity Potion) :
    potion_step pt psz inv c =
      { potion := if (collide pt psz c.pos c.size).isSome then some c.item else inv.potion
        weapon := inv.weapon } := by
  obtain ⟨p, w⟩ := inv
  rcases h : collide pt psz c.pos c.size with _ | col <;>
    by_cases hp : p = some c.item <;>
    simp [potion_step, h, hp]

/-- Weapon analogue of the potion pickup iteration. -/
theorem weapon_step_eq (pt : Point) (psz : TilemapTileSize) (inv : Inventory)
    (c : CollectableEntity Weapon) :
    weapon_step pt psz inv c =
      { potion := inv.potion
        weapon := if (collide pt psz c.pos c.size).isSome then some c.item else inv.weapon } := by
  obtain ⟨p, w⟩ := inv
  rcases h : collide pt psz c.pos c.size with _ | col <;>
    by_cases hw : w = some c.item <;>
    simp [weapon_step, h, hw]

/-- check_collectable_potion is the slot-level fold on the potion slot and
never touches the weapon slot. -/
theorem check_potion_eq_slot_fold (pt : Point) (psz : TilemapTileSize)
    (cs : List (CollectableEntity Potion)) : ∀ inv : Inventory,
    check_collectable_potion pt psz cs inv =
      { potion := slot_fold (fun c => (collide pt psz c.pos c.size).isSome)
          (fun c => c.item) cs inv.potion
        weapon := inv.weapon } := by
  induction cs with
  | nil =>
    intro inv
    cases inv
    rfl
  | cons c cs ih =>
    intro inv
    have h1 : check_collectable_potion pt psz (c :: cs) inv =
        check_collectable_potion pt psz cs (potion_step pt psz inv c) := rfl
    rw [h1, ih (potion_step pt psz inv c), potion_step_eq]
    rfl

/-- check_collectable_weapon is the slot-level fold on the weapon slot and
never touches the potion slot. -/
theorem check_weapon_eq_slot_fold (pt : Point) (psz : TilemapTileSize)
    (cs : List (CollectableEntity Weapon)) : ∀ inv : Inventory,
    check_collectable_weapon pt psz cs inv =
      { potion := inv.potion
        weapon := slot_fold (fun c => (collide pt psz c.pos c.size).isSome)
          (fun c => c.item) cs inv.weapon } := by
  induction cs with
  | nil =>
    intro inv
    cases inv
    rfl
  | cons c cs ih =>
    intro inv
    have h1 : check_collectable_weapon pt psz (c :: cs) inv =
        check_collectable_weapon pt psz cs (weapon_step pt psz inv c) := rfl
    rw [h1, ih (weapon_step pt psz inv c), weapon_step_eq]
    rfl

/-- A pickup fold over a fixed collectable list either ignores the starting
slot entirely (some collectable hits) or is the identity (none hits). -/
theorem slot_fold_cases {α β : Type} (hit : β → Bool) (val : β → α)
    (cs : List β) :
    (∀ p q : Option α, slot_fold hit val cs p = slot_fold hit val cs q) ∨
    (∀ p : Option α, slot_fold hit val cs p = p) := by
  induction cs with
  | nil =>
    right
    intro p
    rfl
  | cons c cs ih =>
    by_cases h : hit c = true
    · left
      intro p q
      have hstep : ∀ r : Option α, slot_fold hit val (c :: cs) r =
          slot_fold hit val cs (some (val c)) := by
        intro r
        show slot_fold hit val cs (if hit c then some (val c) else r) =
          slot_fold hit val cs (some (val c))
        rw [if_pos h]
      rw [hstep p, hstep q]
    · have hstep : ∀ r : Option α, slot_fold hit val (c :: cs) r =
          slot_fold hit val cs r := by
        intro r
        show slot_fold hit val cs (if hit c then some (val c) else r) =
          slot_fold hit val cs r
        rw [if_neg h]
      rcases ih with ih | ih
      · left
        intro p q
        rw [hstep p, hstep q]
        exact ih _ _
      · right
        intro p
        rw [hstep p, ih p]

/-- Running the same pickup fold twice is the same as running it once. -/
theorem slot_fold_idem {α β : Type} (hit : β → Bool) (val : β → α)
    (cs : List β) (p : Option α) :
    slot_fold hit val cs (slot_fold hit val cs p) = slot_fold hit val cs p := by
  rcases slot_fold_cases hit val cs with h | h
  · exact h _ _
  · rw [h, h]

/-- C8 (confirmed): the per-frame pickup pass (potion check then weapon
check) is idempotent: a second run against the same overlapping
collectables leaves the inventory unchanged; and re-overlapping an
already-held item is a no-op for the corresponding slot check. -/
theorem c8_pickup_idempotent (pt : Point) (psz : TilemapTileSize)
    (ps : List (CollectableEntity Potion)) (ws : List (CollectableEntity Weapon))
    (inv : Inventory) :
    check_collectable_weapon pt psz ws (check_collectable_potion pt psz ps
        (check_collectable_weapon pt psz ws (check_collectable_potion pt psz ps inv))) =
      check_collectable_weapon pt psz ws (check_collectable_potion pt psz ps inv) ∧
    (∀ c : CollectableEntity Potion, inv.potion = some c.item →
      check_collectable_potion pt psz [c] inv = inv) ∧
    (∀ c : CollectableEntity Weapon, inv.weapon = some c.item →
      check_collectable_weapon pt psz [c] inv = inv) := by
  refine ⟨?_, ?_, ?_⟩
  · simp only [check_potion_eq_slot_fold, check_weapon_eq_slot_fold]
    rw [slot_fold_idem, slot_fold_idem]
  · intro c hc
    have h1 : check_collectable_potion pt psz [c] inv = potion_step pt psz inv c := rfl
    rw [h1, potion_step_eq]
    cases inv
    simp_all
  · intro c hc
    have h1 : check_collectable_weapon pt psz [c] inv = weapon_step pt psz inv c := rfl
    rw [h1, weapon_step_eq]
    cases inv
    simp_all

/-- C8 witness: a player standing on the red potion it already holds keeps
an unchanged inventory. -/
theorem c8_witness :
    check_collectable_potion ⟨0, 0⟩ ⟨48, 48⟩
        [{ pos := ⟨0, 0⟩, size := ⟨48, 48⟩, item := Potion.Red }]
        { potion := some Potion.Red, weapon := none } =
      { potion := some Potion.Red, weapon := none } :=
  (c8_pickup_idempotent ⟨0, 0⟩ ⟨48, 48⟩
      [{ pos := ⟨0, 0⟩, size := ⟨48, 48⟩, item := Potion.Red }] []
      { potion := some Potion.Red, weapon := none }).2.1
    { pos := ⟨0, 0⟩, size := ⟨48, 48⟩, item := Potion.Red } rfl

/-- C10 (confirmed): with no key held and a speed strictly between 0 and 2,
the input step subtracts exactly 2.0 leaving a strictly negative speed and
an unchanged direction; the same frame integration step then displaces the
player opposite to that direction; the next no-key step, seeing a
non-positive speed, sets Stopped with speed 0; and a no-key step never
produces a speed below -2. -/
theorem c10_coasting_negative_speed (s dt : ℚ) (d : Direction) (pt : Point)
    (hs0 : 0 < s) (hs2 : s < 2) (hd : d ≠ Direction.Stopped) (hdt : 0 < dt) :
    input_system_keyboard no_keys { speed := s, direction := d } =
      { speed := s - 2, direction := d } ∧
    s - 2 < 0 ∧
    (d = Direction.Up →
      (update_player_position pt { speed := s - 2, direction := d } dt).y < pt.y) ∧
    (d = Direction.Down →
      (update_player_position pt { speed := s - 2, direction := d } dt).y > pt.y) ∧
    (d = Direction.Left →
      (update_player_position pt { speed := s - 2, direction := d } dt).x > pt.x) ∧
    (d = Direction.Right →
      (update_player_position pt { speed := s - 2, direction := d } dt).x < pt.x) ∧
    input_system_keyboard no_keys { speed := s - 2, direction := d } =
      { speed := 0, direction := Direction.Stopped } ∧
    (∀ s0 : ℚ, -2 < (input_system_keyboard no_keys { speed := s0, direction := d }).speed) := by
  have hneg : (s - 2) * dt < 0 :=
    mul_neg_of_neg_of_pos (by linarith) hdt
  refine ⟨?_, by linarith, ?_, ?_, ?_, ?_, ?_, ?_⟩
  · simp [input_system_keyboard, no_keys, hs0]
  · rintro rfl
    simp only [update_player_position]
    linarith
  · rintro rfl
    simp only [update_player_position, gt_iff_lt]
    linarith
  · rintro rfl
    simp only [update_player_position, gt_iff_lt]
    linarith
  · rintro rfl
    simp only [update_player_position]
    linarith
  · simp [input_system_keyboard, no_keys, show ¬s - 2 > 0 by linarith]
  · intro s0
    by_cases h : s0 > 0 <;> simp [input_system_keyboard, no_keys, h]

/-- C10 witness: the coasting theorem instantiated at speed 1, direction
Up, a one-second frame and the origin. -/
theorem c10_witness :
    input_system_keyboard no_keys { speed := 1, direction := Direction.Up } =
      { speed := 1 - 2, direction := Direction.Up } ∧
    (1 : ℚ) - 2 < 0 ∧
    (Direction.Up = Direction.Up →
      (update_player_position ⟨0, 0⟩
          { speed := 1 - 2, direction := Direction.Up } 1).y < (Point.mk 0 0).y) ∧
    (Direction.Up = Direction.Down →
      (update_player_position ⟨0, 0⟩
          { speed := 1 - 2, direction := Direction.Up } 1).y > (Point.mk 0 0).y) ∧
    (Direction.Up = Direction.Left →
      (update_player_position ⟨0, 0⟩
          { speed := 1 - 2, direction := Direction.Up } 1).x > (Point.mk 0 0).x) ∧
    (Direction.Up = Direction.Right →
      (update_player_position ⟨0, 0⟩
          { speed := 1 - 2, direction := Direction.Up } 1).x < (Point.mk 0 0).x) ∧
    input_system_keyboard no_keys { speed := 1 - 2, direction := Direction.Up } =
      { speed := 0, direction := Direction.Stopped } ∧
    (∀ s0 : ℚ, -2 <
      (input_system_keyboard no_keys { speed := s0, direction := Direction.Up }).speed) :=
  c10_coasting_negative_speed 1 1 Direction.Up ⟨0, 0⟩
    (by norm_num) (by norm_num) (by decide) (by norm_num)

end BevyTiled
